import Mathlib

/-!
Verification of the nightwatch / noxaudit batch-audit core.

Shallow embedding of the batch-audit lifecycle (submit / retrieve of provider
batch jobs, pending-batch ledger handling), the provider response parsing and
finding-identity computation, and the cross-run metrics engine
(`scripts/benchmark_analyze.py`), together with proofs settling the claims
about this code.

Conventions of the embedding:
* Python dictionaries parsed from provider JSON are modelled as structures;
  a key that may be absent or JSON-`null` is an `Option` field (`.get` returns
  `None` in both cases in the source).
* Python float arithmetic is modelled over `ℚ` (the source only divides and
  averages; the claims concern exact definedness and values).
* Remote provider calls, file gathering, decision loading and the decision
  filter are external collaborators; they enter the embedding as explicit
  function parameters (oracles), exactly at the call boundary the source uses.
* Fallible code (Python exceptions) is modelled in `Except`.
* SHA-256 identity hashes: the source computes
  `hashlib.sha256(key.encode()).hexdigest()[:12]` from a key string.  The hash
  is a fixed deterministic function of the key, so all identity claims are
  settled at the level of the key strings (`anthropicFindingKey`,
  `geminiFindingKey`): equal keys force equal ids for any deterministic hash.
-/

namespace Nightwatch

/-- Severity enum of a finding (`models.Severity`): `{high, medium, low}`,
as fixed by both providers' `FINDING_SCHEMA`. -/
inductive Severity where
  | high
  | medium
  | low
deriving DecidableEq, Repr

/-- `Severity(s)` in Python: converts the raw string, raising `ValueError`
(modelled as `.error`) when the string is not a member of the enum. -/
def Severity.ofString : String → Except String Severity
  | "high" => .ok .high
  | "medium" => .ok .medium
  | "low" => .ok .low
  | s => .error s

/-- One raw finding dict as decoded from a provider JSON response
(the element shape of `data["findings"]`).  `line`, `suggestion` and `focus`
are optional per the schema; `none` models an absent or `null` key (both give
`None` via `dict.get` in the source).  `severity` is still the raw string at
this stage. -/
structure RawFinding where
  severity : String
  file : String
  line : Option Int := none
  title : String
  description : String
  suggestion : Option String := none
  focus : Option String := none
deriving DecidableEq, Repr

/-- Modelled from the spec: `models.Finding` (`models.py` is not under `src/`;
fields per spec §3 and the constructor calls in both providers' parsers).
`id` holds the identity key (see the note on SHA-256 in the file header). -/
structure Finding where
  id : String
  severity : Severity
  file : String
  line : Option Int := none
  title : String
  description : String
  suggestion : Option String := none
  focus : Option String := none
deriving DecidableEq, Repr

/-- Python truthiness of an `str | None` value: `None` and `""` are falsy. -/
def pyTruthy : Option String → Bool
  | none => false
  | some s => s ≠ ""

/-- `a or b` for `a : str | None`, `b : str | None` (Python truthiness). -/
def pyOrOpt (a b : Option String) : Option String :=
  if pyTruthy a then a else b

/-- How `f"...{raw.get('line', '')}"` renders the line: an absent line gives
the empty string, a present integer its decimal form.  (A present-but-`null`
line would render as `"None"` in the source; no claim depends on that case.) -/
def lineStr : Option Int → String
  | some n => toString n
  | none => ""

/-- The shared part of both providers' identity keys:
`f"{raw['file']}:{raw['title']}:{raw.get('line', '')}"`. -/
def baseKey (r : RawFinding) : String :=
  r.file ++ ":" ++ r.title ++ ":" ++ lineStr r.line

/-- `AnthropicProvider._make_finding_id` (pre-hash key): the key is
`file:title:line` only — `focus` never enters. -/
def anthropicFindingKey (r : RawFinding) : String :=
  baseKey r

/-- `GeminiProvider._make_finding_id` (pre-hash key): the key is
`file:title:line`, prefixed by `f"{focus}:"` only when `raw.get("focus")`
is truthy (non-`None`, non-empty). -/
def geminiFindingKey (r : RawFinding) : String :=
  if pyTruthy r.focus then r.focus.getD "" ++ ":" ++ baseKey r else baseKey r

/-- Body of the parse loop in `GeminiProvider._parse_text`: one raw finding
becomes a `Finding`, with `focus = f.get("focus") or default_focus` and the
id computed by `_make_finding_id`; `Severity(f["severity"])` may raise. -/
def parseFinding (default_focus : Option String) (f : RawFinding) :
    Except String Finding := do
  let sev ← Severity.ofString f.severity
  return { id := geminiFindingKey f
           severity := sev
           file := f.file
           line := f.line
           title := f.title
           description := f.description
           suggestion := f.suggestion
           focus := pyOrOpt f.focus default_focus }

/-- `GeminiProvider._parse_text` after JSON decoding: maps
`data.get("findings", [])` in order through the parse loop; the first invalid
severity aborts with the `ValueError`. -/
def parseText (payload : List RawFinding) (default_focus : Option String) :
    Except String (List Finding) :=
  payload.mapM (parseFinding default_focus)

/-- The `_last_usage` token-accounting record kept by a provider; all counts
default to zero (`usage.get(..., 0) or 0`). -/
structure Usage where
  input_tokens : Nat := 0
  output_tokens : Nat := 0
  cache_read_tokens : Nat := 0
  cache_write_tokens : Nat := 0
deriving DecidableEq, Repr

/-- One candidate of a batch-output response:
`candidates[i].get("content", {}).get("parts", [])`, where each part's
`"text"` is the JSON payload `data.get("findings", [])` once decoded (the
fence-stripping and `json.loads` of `_parse_text` are the decode boundary). -/
structure Candidate where
  parts : List (List RawFinding)
deriving DecidableEq, Repr

/-- One line of the downloaded batch-output JSONL, after `splitlines()`:
either whitespace-only (skipped by `if not line.strip(): continue`) or a
decoded entry whose `response` holds `candidates` and, when the
`usageMetadata` dict is non-empty, a usage record. -/
inductive GenLine where
  | blank
  | entry (candidates : List Candidate) (usage : Option Usage)
deriving DecidableEq, Repr

/-- The loop body of `GeminiProvider.retrieve_batch` over the output lines.
Carries the `findings` local (initialised `[]`) and the provider's
`_last_usage` field.  Per line: `findings` is REASSIGNED from
`_parse_text(candidates[0]["content"]["parts"][0]["text"])` when the line has
a non-empty candidate list with a non-empty part list (otherwise kept), and
`_last_usage` is overwritten when `usageMetadata` is truthy. -/
def processLines (default_focus : Option String) :
    List GenLine → List Finding → Usage → Except String (List Finding × Usage)
  | [], findings, usage => .ok (findings, usage)
  | .blank :: rest, findings, usage => processLines default_focus rest findings usage
  | .entry cs mu :: rest, findings, usage => do
      let findings' ←
        match cs.head? with
        | some c =>
            match c.parts.head? with
            | some payload => parseText payload default_focus
            | none => pure findings
        | none => pure findings
      processLines default_focus rest findings' (mu.getD usage)

/-- `request_counts` dict of a retrieval result. -/
structure RequestCounts where
  processing : Nat
  succeeded : Nat
  errored : Nat
deriving DecidableEq, Repr

/-- The dict returned by `retrieve_batch` (also the shape the runner's
`_retrieve_repo` reads): `findings := none` models the key being absent
(non-terminal states). -/
structure RetrieveResult where
  batch_id : String
  status : String
  request_counts : RequestCounts
  findings : Option (List Finding) := none
deriving DecidableEq, Repr

/-- `_GEMINI_TERMINAL_STATES`. -/
def GEMINI_TERMINAL_STATES : List String :=
  ["JOB_STATE_SUCCEEDED", "JOB_STATE_FAILED", "JOB_STATE_CANCELLED"]

/-- `GeminiProvider.retrieve_batch`.  The remote job is abstracted to its
observed `state.name` and the (already line-split and JSON-decoded) content of
the downloaded output file; `lastUsage` is the provider's `_last_usage` on
entry, and the returned `Usage` its value after the call. -/
def retrieve_batch (batch_id : String) (state_name : String)
    (output : List GenLine) (lastUsage : Usage) (default_focus : Option String) :
    Except String (RetrieveResult × Usage) :=
  let is_done := state_name ∈ GEMINI_TERMINAL_STATES
  let status := if is_done then "ended" else "processing"
  let succeeded := if state_name = "JOB_STATE_SUCCEEDED" then 1 else 0
  let errored :=
    if state_name = "JOB_STATE_FAILED" ∨ state_name = "JOB_STATE_CANCELLED" then 1 else 0
  let processing := if is_done then 0 else 1
  let base : RetrieveResult :=
    { batch_id := batch_id
      status := status
      request_counts := ⟨processing, succeeded, errored⟩ }
  if state_name = "JOB_STATE_SUCCEEDED" then do
    let (fs, u) ← processLines default_focus output [] lastUsage
    return ({ base with findings := some fs }, u)
  else if is_done then
    .ok ({ base with findings := some [] }, lastUsage)
  else
    .ok (base, lastUsage)

/-- The findings payload a line contributes, when it has one: the decoded
text of `candidates[0]...parts[0]` (the condition under which the loop in
`retrieve_batch` reassigns `findings`). -/
def lineFindingsPayload : GenLine → Option (List RawFinding)
  | .blank => none
  | .entry cs _ => do
      let c ← cs.head?
      c.parts.head?

/-- Modelled from the spec: `models.FileContent` (`models.py` is not under
`src/`; shape per spec §6: `FileContent{path, content}`). -/
structure FileContent where
  path : String
  content : String
deriving DecidableEq, Repr

/-- One configured repository as the runner reads it
(`repo.name`, `repo.path`, `repo.exclude_patterns`). -/
structure RepoConfig where
  name : String
  path : String := "."
  exclude_patterns : List String := []
deriving DecidableEq, Repr

/-- One entry of `pending["batches"]`, as built by `_submit_repo`. -/
structure BatchInfo where
  repo : String
  batch_id : String
  provider : String
deriving DecidableEq, Repr

/-- The pending-batch ledger content
(`{submitted_at, focus, batches:[...]}`, `.nightwatch/pending-batch.json`). -/
structure Pending where
  submitted_at : String
  focus : String
  batches : List BatchInfo
deriving DecidableEq, Repr

/-- Exceptions escaping the runner: `ValueError` (validation) and provider
errors (`ProviderError`, credential errors at provider construction, ...). -/
inductive RunnerError where
  | validation (msg : String)
  | provider (msg : String)
deriving DecidableEq, Repr

/-- Modelled from the spec: `models.AuditResult` (`models.py` is not under
`src/`; fields per spec §3, constructor keywords in `runner.py`; the fields the
zero-file placeholder omits — findings, new_findings, resolved_count — default
to empty/zero, per spec §4.3 "placeholder AuditResult with provider tag 'none'
and empty findings"). -/
structure AuditResult where
  repo : String
  focus : String
  provider : String
  findings : List Finding := []
  new_findings : List Finding := []
  resolved_count : Nat := 0
  timestamp : String := ""
deriving DecidableEq, Repr

/-- `pname = provider_name or config.get_provider_for_repo(repo.name)`
(Python truthiness: `None` and `""` fall through to the default). -/
def pyOrS (a : Option String) (b : String) : String :=
  match a with
  | some s => if s = "" then b else s
  | none => b

/-- The `PROVIDERS` registry keys of `nightwatch/runner.py`. -/
def PROVIDERS : List String := ["anthropic"]

/-- The `FOCUS_AREAS` registry keys of `nightwatch/focus/__init__.py`. -/
def FOCUS_AREAS : List String := ["security", "docs", "patterns"]

/-- `_submit_repo`, instrumented with the list of repos for which the remote
`submit_batch` call was actually issued (second component; the source's only
remote call on this path).  Oracles: `gather` stands for
`FOCUS_AREAS[focus_name]().gather_files(repo.path, repo.exclude_patterns)`,
`submitB pname repo` for constructing `PROVIDERS[pname](model=...)` and
calling `submit_batch` (either may raise).  Returns `none` (no batch info)
for the zero-file and dry-run branches, per the source. -/
def submitRepoT (gather : String → RepoConfig → List FileContent)
    (submitB : String → RepoConfig → Except RunnerError String)
    (providerFor : String → String)
    (repo : RepoConfig) (focus_name : String) (provider_name : Option String)
    (dry_run : Bool) : Except RunnerError (Option BatchInfo) × List String :=
  let files := gather focus_name repo
  if files.isEmpty then (.ok none, [])
  else if dry_run then (.ok none, [])
  else
    let pname := pyOrS provider_name (providerFor repo.name)
    if pname ∈ PROVIDERS then
      match submitB pname repo with
      | .ok bid => (.ok (some ⟨repo.name, bid, pname⟩), [repo.name])
      | .error e => (.error e, [repo.name])
    else (.error (.validation ("Unknown provider: " ++ pname)), [])

/-- The `for repo in repos:` loop of `submit_audit`: appends each returned
batch info; an exception raised by `_submit_repo` propagates immediately,
ending the loop (the source has no try/except here).  The trace accumulates
the remote-call instrumentation of `submitRepoT`. -/
def submitLoopT (gather : String → RepoConfig → List FileContent)
    (submitB : String → RepoConfig → Except RunnerError String)
    (providerFor : String → String)
    (focus_name : String) (provider_name : Option String) (dry_run : Bool) :
    List RepoConfig → List BatchInfo →
    Except RunnerError (List BatchInfo) × List String
  | [], acc => (.ok acc, [])
  | repo :: rest, acc =>
    match submitRepoT gather submitB providerFor repo focus_name provider_name dry_run with
    | (.error e, t) => (.error e, t)
    | (.ok bi, t) =>
        let acc' := match bi with
          | some b => acc ++ [b]
          | none => acc
        let (res, t') :=
          submitLoopT gather submitB providerFor focus_name provider_name dry_run rest acc'
        (res, t ++ t')

/-- The static configuration `submit_audit` consults: the repo list,
`config.get_today_focus()` and `config.get_provider_for_repo`. -/
structure Config where
  repos : List RepoConfig
  today_focus : String
  provider_for : String → String

/-- `submit_audit`, instrumented with the remote-call trace.  Returns
`.ok none` for the "off" day (the source returns `None`), otherwise the
`pending` dict (which the source then writes to the ledger file when
`pending["batches"]` is non-empty and not a dry run).  `now` stands for
`datetime.now().isoformat()`. -/
def submit_auditT (gather : String → RepoConfig → List FileContent)
    (submitB : String → RepoConfig → Except RunnerError String)
    (cfg : Config) (repo_name : Option String) (focus_arg : Option String)
    (provider_name : Option String) (dry_run : Bool) (now : String) :
    Except RunnerError (Option Pending) × List String :=
  let focus_name := pyOrS focus_arg cfg.today_focus
  if focus_name = "off" then (.ok none, [])
  else if focus_name ∉ FOCUS_AREAS then
    (.error (.validation ("Unknown focus area: " ++ focus_name)), [])
  else
    let repos :=
      if pyTruthy repo_name then
        cfg.repos.filter (fun r => r.name = repo_name.getD "")
      else cfg.repos
    if pyTruthy repo_name ∧ repos.isEmpty then
      (.error (.validation ("Unknown repo: " ++ repo_name.getD "")), [])
    else
      match submitLoopT gather submitB cfg.provider_for focus_name provider_name
          dry_run repos [] with
      | (.ok batches, t) =>
          (.ok (some { submitted_at := now, focus := focus_name, batches := batches }), t)
      | (.error e, t) => (.error e, t)

/-- `submit_audit` without the instrumentation (first projection). -/
def submit_audit (gather : String → RepoConfig → List FileContent)
    (submitB : String → RepoConfig → Except RunnerError String)
    (cfg : Config) (repo_name : Option String) (focus_arg : Option String)
    (provider_name : Option String) (dry_run : Bool) (now : String) :
    Except RunnerError (Option Pending) :=
  (submit_auditT gather submitB cfg repo_name focus_arg provider_name dry_run now).1

/-- `_retrieve_repo`: polls one batch and, only on a terminal (`"ended"`)
status, filters against decisions and builds the `AuditResult` (report and
notification dispatch are external side effects).  Oracles: `poll binfo`
stands for `PROVIDERS[pname](model=...).retrieve_batch(batch_id)`, `filterF`
for `filter_findings(findings, decisions, repo_path, expiry_days)`.  Returns
`none` when the batch is still processing (the source prints and returns
`None`). -/
def retrieveRepo (poll : BatchInfo → RetrieveResult)
    (filterF : List Finding → List Finding × Nat)
    (binfo : BatchInfo) (focus_name : String) (now : String) : Option AuditResult :=
  let result := poll binfo
  if result.status ≠ "ended" then none
  else
    let findings := result.findings.getD []
    let (new_findings, resolved_count) := filterF findings
    some { repo := binfo.repo
           focus := focus_name
           provider := binfo.provider
           findings := findings
           new_findings := new_findings
           resolved_count := resolved_count
           timestamp := now }

/-- `retrieve_audit` over the pending-batch ledger.  The ledger file is
abstracted to its content (`none` = file absent).  Returns the retrieved
results together with the ledger content AFTER the invocation: the source
unlinks the file exactly when `results` is non-empty
(`if results: path.unlink(missing_ok=True)`), and otherwise leaves it
untouched. -/
def retrieve_audit (poll : BatchInfo → RetrieveResult)
    (filterF : List Finding → List Finding × Nat)
    (ledger : Option Pending) (now : String) :
    List AuditResult × Option Pending :=
  match ledger with
  | none => ([], none)
  | some pending =>
      let results := pending.batches.filterMap
        (fun b => retrieveRepo poll filterF b pending.focus now)
      if results.isEmpty then (results, some pending) else (results, none)

/-- `_run_repo_sync`, instrumented with the number of provider audit calls
issued (second component).  Oracles: `gather` as in `submitRepoT`, `runA
pname repo` for `PROVIDERS[pname](model=...).run_audit(...)` (the dict lookup
`PROVIDERS[pname]` raising `KeyError` on an unknown name is modelled as a
validation error), `filterF` for `filter_findings`.  The zero-file branch
returns the placeholder result with provider `"none"` before any provider
interaction; the dry-run branch similarly short-circuits with `"dry-run"`. -/
def runRepoSyncT (gather : String → RepoConfig → List FileContent)
    (runA : String → RepoConfig → Except RunnerError (List Finding))
    (filterF : List Finding → List Finding × Nat)
    (providerFor : String → String)
    (repo : RepoConfig) (focus_name : String) (provider_name : Option String)
    (dry_run : Bool) (now : String) : Except RunnerError AuditResult × Nat :=
  let files := gather focus_name repo
  if files.isEmpty then
    (.ok { repo := repo.name, focus := focus_name, provider := "none", timestamp := now }, 0)
  else if dry_run then
    (.ok { repo := repo.name, focus := focus_name, provider := "dry-run", timestamp := now }, 0)
  else
    let pname := pyOrS provider_name (providerFor repo.name)
    if pname ∈ PROVIDERS then
      match runA pname repo with
      | .error e => (.error e, 1)
      | .ok findings =>
          let (new_findings, resolved_count) := filterF findings
          (.ok { repo := repo.name
                 focus := focus_name
                 provider := pname
                 findings := findings
                 new_findings := new_findings
                 resolved_count := resolved_count
                 timestamp := now }, 1)
    else (.error (.validation ("KeyError: " ++ pname)), 0)

end Nightwatch

namespace BenchmarkAnalyze

/-- One benchmark run record (`scripts/benchmark_analyze.py` input corpus),
restricted to the keys `compute_run_metrics` reads.  Optional keys carry the
source's `.get` defaults; `findings` is kept as the list of the finding ids
the source extracts (`{f["id"] for f in r.get("findings", [])}` reads only
`"id"`).  Float quantities are modelled over `ℚ`. -/
structure RunRecord where
  provider : String
  model : String
  repo : String
  focus : String
  run_number : Int := 0
  findings_count : Nat
  high_severity_count : Nat := 0
  cost_usd : ℚ := 0
  duration_seconds : Option ℚ := none
  input_tokens : Nat := 0
  output_tokens : Nat := 0
  findings : List String := []

/-- `jaccard_similarity(set_a, set_b)`: 1.0 when both sets are empty
(`if not set_a and not set_b`), else `|set_a ∩ set_b| / |set_a ∪ set_b|`. -/
def jaccard_similarity (set_a set_b : Finset String) : ℚ :=
  if set_a = ∅ ∧ set_b = ∅ then 1
  else ((set_a ∩ set_b).card : ℚ) / ((set_a ∪ set_b).card : ℚ)

/-- `_safe_mean(values)`: `None` on the empty list, else the arithmetic mean. -/
def safeMean (values : List ℚ) : Option ℚ :=
  if values.isEmpty then none else some (values.sum / (values.length : ℚ))

/-- The finding-id set of one run: `{f["id"] for f in r.get("findings", [])}`. -/
def idSet (r : RunRecord) : Finset String :=
  r.findings.toFinset

/-- `sorted(runs, key=lambda x: x.get("run_number", 0))` (stable sort on the
run number). -/
def sortRuns (runs : List RunRecord) : List RunRecord :=
  runs.mergeSort (fun a b => a.run_number ≤ b.run_number)

/-- The per-group metrics dict built by `compute_run_metrics` (numeric
entries; the four key strings are carried by the grouping, `run_count` by
`runs_sorted`). -/
structure GroupMetrics where
  run_count : Nat
  avg_findings : Option ℚ
  avg_high_severity_rate : Option ℚ
  consistency_jaccard : Option ℚ
  avg_cost_usd : Option ℚ
  avg_batch_cost_usd : Option ℚ
  cost_per_finding_usd : Option ℚ
  avg_duration_seconds : Option ℚ
  avg_input_tokens : Option ℚ
  avg_output_tokens : Option ℚ
deriving DecidableEq, Repr

/-- The body of the `for key, runs in groups.items():` loop of
`compute_run_metrics`, computing one group's metrics. -/
def computeGroupMetrics (runs : List RunRecord) : GroupMetrics :=
  let runs_sorted := sortRuns runs
  let finding_counts : List ℚ := runs_sorted.map (fun r => (r.findings_count : ℚ))
  let avg_findings := safeMean finding_counts
  let high_rates : List ℚ := runs_sorted.map (fun r =>
    if r.findings_count > 0 then
      (r.high_severity_count : ℚ) / (r.findings_count : ℚ)
    else 0)
  let avg_high_rate := safeMean high_rates
  let consistency : Option ℚ :=
    match runs_sorted with
    | r1 :: r2 :: _ => some (jaccard_similarity (idSet r1) (idSet r2))
    | _ => none
  let costs := runs_sorted.map (fun r => r.cost_usd)
  let avg_cost := safeMean costs
  let cost_per_finding : Option ℚ :=
    match avg_cost, avg_findings with
    | some c, some f => if 0 < f then some (c / f) else none
    | _, _ => none
  let durations := runs_sorted.filterMap (fun r =>
    match r.duration_seconds with
    | some d => if 0 < d then some d else none
    | none => none)
  let avg_duration := safeMean durations
  let avg_input_tokens := safeMean (runs_sorted.map (fun r => (r.input_tokens : ℚ)))
  let avg_output_tokens := safeMean (runs_sorted.map (fun r => (r.output_tokens : ℚ)))
  let avg_batch_cost := avg_cost.map (fun c => c * (1 / 2))
  { run_count := runs_sorted.length
    avg_findings := avg_findings
    avg_high_severity_rate := avg_high_rate
    consistency_jaccard := consistency
    avg_cost_usd := avg_cost
    avg_batch_cost_usd := avg_batch_cost
    cost_per_finding_usd := cost_per_finding
    avg_duration_seconds := avg_duration
    avg_input_tokens := avg_input_tokens
    avg_output_tokens := avg_output_tokens }

/-- The grouping key `(r["provider"], r["model"], r["repo"], r["focus"])`. -/
def runKey (r : RunRecord) : String × String × String × String :=
  (r.provider, r.model, r.repo, r.focus)

/-- The group a key receives in `groups` (a `defaultdict(list)` filled by
appending in input order): the input-order sublist of records with that key. -/
def groupOf (results : List RunRecord) (key : String × String × String × String) :
    List RunRecord :=
  results.filter (fun r => runKey r = key)

/-- `compute_run_metrics` as a map from a grouping key to its metrics
(the source's returned dict, read at one key; keys with an empty group do not
occur in the dict). -/
def compute_run_metrics (results : List RunRecord)
    (key : String × String × String × String) : GroupMetrics :=
  computeGroupMetrics (groupOf results key)

end BenchmarkAnalyze

namespace Nightwatch

/-- The value the loop of `retrieve_batch` leaves in its `findings` local:
the parse of the last line carrying a findings payload (starting from `fs0`,
which the source initialises to `[]`); when that parse raises the loop does
not finish, so the fallback arm is arbitrary (`fs0`). -/
def lastFold (default_focus : Option String) (lines : List GenLine)
    (fs0 : List Finding) : List Finding :=
  match (lines.filterMap lineFindingsPayload).getLast? with
  | none => fs0
  | some p =>
      match parseText p default_focus with
      | .ok gs => gs
      | .error _ => fs0

/-! Concrete inputs used to witness or refute individual claims. -/

/-- Ledger entry for a repo whose batch has ended (claim C1 input). -/
def c1Batch1 : BatchInfo := ⟨"repoX", "b1", "anthropic"⟩

/-- Ledger entry for a repo whose batch is still processing (claim C1 input). -/
def c1Batch2 : BatchInfo := ⟨"repoY", "b2", "anthropic"⟩

/-- A two-repo pending-batch ledger (claim C1 input). -/
def c1Pending : Pending := ⟨"2026-02-27T00:00:00", "security", [c1Batch1, c1Batch2]⟩

/-- Poll oracle: batch `b1` has ended with no findings, every other batch is
still processing (claim C1 input). -/
def c1Poll : BatchInfo → RetrieveResult := fun b =>
  if b.batch_id = "b1" then
    { batch_id := "b1", status := "ended", request_counts := ⟨0, 1, 0⟩, findings := some [] }
  else
    { batch_id := b.batch_id, status := "processing", request_counts := ⟨1, 0, 0⟩ }

/-- A decision filter that suppresses nothing (pass-through oracle). -/
def noFilter : List Finding → List Finding × Nat := fun fs => (fs, 0)

/-- First repo of the claim C2 input. -/
def c2X : RepoConfig := { name := "repoX" }

/-- Second repo of the claim C2 input. -/
def c2Y : RepoConfig := { name := "repoY" }

/-- Two-repo configuration (claim C2 input). -/
def c2Cfg : Config := ⟨[c2X, c2Y], "security", fun _ => "anthropic"⟩

/-- Gather oracle returning one file for every repo (claim C2 input). -/
def c2Gather : String → RepoConfig → List FileContent := fun _ _ => [⟨"a.py", "x = 1"⟩]

/-- Submit oracle: succeeds for `repoX` (and any other repo), raises
`ProviderError` for `repoY` — so the failure happens mid-loop, after a
successful submission (claim C2 input). -/
def c2Submit : String → RepoConfig → Except RunnerError String := fun _ r =>
  if r.name = "repoY" then .error (.provider "boom") else .ok ("bid-" ++ r.name)

/-- Repo used by the claim C8 witness. -/
def c8Repo : RepoConfig := { name := "emptyRepo" }

/-- Gather oracle returning zero files for every repo (claim C8 witness). -/
def c8Gather : String → RepoConfig → List FileContent := fun _ _ => []

/-- Audit oracle for the claim C8 witness (never reached). -/
def c8Run : String → RepoConfig → Except RunnerError (List Finding) := fun _ _ => .ok []

/-- Submit oracle for the claim C8 witness (never reached). -/
def c8Submit : String → RepoConfig → Except RunnerError String := fun _ _ => .ok "bid"

/-- Raw finding that supplies an explicit non-empty focus (claim C9 witness). -/
def c9Raw : RawFinding :=
  { severity := "low", file := "a.py", title := "T", description := "D"
    focus := some "performance" }

/-- The finding `_parse_text` builds from `c9Raw` under default focus
`"security"`. -/
def c9Finding : Finding :=
  { id := "performance:a.py:T:", severity := .low, file := "a.py", title := "T"
    description := "D", focus := some "performance" }

/-- Raw finding carried by the first output line of the claim C10 witness. -/
def c10RawA : RawFinding :=
  { severity := "high", file := "a.py", title := "A", description := "first" }

/-- Raw finding carried by the second output line of the claim C10 witness. -/
def c10RawB : RawFinding :=
  { severity := "low", file := "b.py", title := "B", description := "second" }

/-- First JSONL output line, carrying `c10RawA` (claim C10 witness). -/
def c10Line1 : GenLine := .entry [⟨[[c10RawA]]⟩] none

/-- Second JSONL output line, carrying `c10RawB` (claim C10 witness). -/
def c10Line2 : GenLine := .entry [⟨[[c10RawB]]⟩] none

/-- The finding parsed from `c10RawB` (claim C10 witness). -/
def c10FindingB : Finding :=
  { id := "b.py:B:", severity := .low, file := "b.py", title := "B", description := "second" }

end Nightwatch

namespace BenchmarkAnalyze

/-- First benchmark run of the claim C5 witness group (ids `aaa`, `bbb`). -/
def c5R1 : RunRecord :=
  { provider := "anthropic", model := "claude-haiku-4-5", repo := "requests"
    focus := "security", run_number := 1, findings_count := 2
    findings := ["aaa", "bbb"] }

/-- Second benchmark run of the claim C5 witness group (ids `bbb`, `ccc`). -/
def c5R2 : RunRecord :=
  { provider := "anthropic", model := "claude-haiku-4-5", repo := "requests"
    focus := "security", run_number := 2, findings_count := 2
    findings := ["bbb", "ccc"] }

/-- Corpus for the claim C5 witness: the two runs above plus one run of an
unrelated group. -/
def c5Results : List RunRecord :=
  [c5R1, c5R2,
   { provider := "gemini", model := "gemini-2.0-flash", repo := "requests"
     focus := "security", run_number := 1, findings_count := 0 }]

/-- Grouping key of the claim C5 witness group. -/
def c5Key : String × String × String × String :=
  ("anthropic", "claude-haiku-4-5", "requests", "security")

/-- Single benchmark run of the claim C7 witness group: 2 findings at cost
0.1. -/
def c7Run : RunRecord :=
  { provider := "anthropic", model := "claude-sonnet-4-5", repo := "flask"
    focus := "docs", run_number := 1, findings_count := 2, cost_usd := 1 / 10
    findings := ["xxx", "yyy"] }

/-- Corpus for the claim C7 witness. -/
def c7Results : List RunRecord := [c7Run]

/-- Grouping key of the claim C7 witness group. -/
def c7Key : String × String × String × String :=
  ("anthropic", "claude-sonnet-4-5", "flask", "docs")

/-- C6: for all finite sets of finding ids `A` and `B`,
`jaccard_similarity A B` lies in `[0,1]`; the similarity of two empty sets is
`1`; `jaccard_similarity A A = 1`; the similarity of two distinct singletons
is `0`; and `jaccard_similarity` is symmetric. -/
theorem jaccard_similarity_properties (A B : Finset String) (x y : String)
    (hxy : x ≠ y) :
    (0 ≤ jaccard_similarity A B ∧ jaccard_similarity A B ≤ 1) ∧
    jaccard_similarity ∅ ∅ = 1 ∧
    jaccard_similarity A A = 1 ∧
    jaccard_similarity {x} {y} = 0 ∧
    jaccard_similarity A B = jaccard_similarity B A := by
  have hrange : ∀ C D : Finset String,
      0 ≤ jaccard_similarity C D ∧ jaccard_similarity C D ≤ 1 := by
    intro C D
    unfold jaccard_similarity
    split
    · exact ⟨zero_le_one, le_refl 1⟩
    · rename_i hne
      have hunion : (C ∪ D).Nonempty := by
        rcases Finset.eq_empty_or_nonempty (C ∪ D) with h | h
        · exact absurd (Finset.union_eq_empty.mp h) hne
        · exact h
      have hpos : (0 : ℚ) < ((C ∪ D).card : ℚ) := by
        exact_mod_cast Finset.card_pos.mpr hunion
      constructor
      · positivity
      · rw [div_le_one hpos]
        exact_mod_cast Finset.card_le_card Finset.inter_subset_union
  refine ⟨hrange A B, ?_, ?_, ?_, ?_⟩
  · unfold jaccard_similarity
    simp
  · unfold jaccard_similarity
    split
    · rfl
    · rename_i hne
      have hA : A ≠ ∅ := fun h => hne ⟨h, h⟩
      have hpos : (0 : ℚ) < (A.card : ℚ) := by
        exact_mod_cast Finset.card_pos.mpr (Finset.nonempty_of_ne_empty hA)
      rw [Finset.inter_self, Finset.union_self]
      exact div_self (ne_of_gt hpos)
  · unfold jaccard_similarity
    have hx : ({x} : Finset String) ≠ ∅ := Finset.singleton_ne_empty x
    have hinter : ({x} : Finset String) ∩ {y} = ∅ := by
      apply Finset.singleton_inter_of_not_mem
      simpa using hxy
    rw [if_neg (fun h => hx h.1), hinter]
    simp
  · unfold jaccard_similarity
    rw [Finset.inter_comm, Finset.union_comm]
    by_cases h : A = ∅ ∧ B = ∅
    · rw [if_pos h, if_pos ⟨h.2, h.1⟩]
    · rw [if_neg h, if_neg (fun h2 => h ⟨h2.2, h2.1⟩)]

/-- Closed witness for `jaccard_similarity_properties` at
`A = {"a"}`, `B = ∅`, `x = "a"`, `y = "b"`. -/
theorem jaccard_similarity_properties_witness :
    (0 ≤ jaccard_similarity {"a"} ∅ ∧ jaccard_similarity {"a"} ∅ ≤ 1) ∧
    jaccard_similarity ∅ ∅ = 1 ∧
    jaccard_similarity {"a"} {"a"} = 1 ∧
    jaccard_similarity {"a"} {"b"} = 0 ∧
    jaccard_similarity {"a"} ∅ = jaccard_similarity ∅ {"a"} :=
  jaccard_similarity_properties {"a"} ∅ "a" "b" (by decide)

/-- C7: for every group, `cost_per_finding` equals `avg_cost / avg_findings`
exactly when both averages are defined and `avg_findings > 0`, and is
undefined (`none`) otherwise — in particular whenever `avg_findings = 0`. -/
theorem cost_per_finding_spec (results : List RunRecord)
    (key : String × String × String × String) :
    (∀ c f, (compute_run_metrics results key).avg_cost_usd = some c →
        (compute_run_metrics results key).avg_findings = some f → 0 < f →
        (compute_run_metrics results key).cost_per_finding_usd = some (c / f)) ∧
    (∀ f, (compute_run_metrics results key).avg_findings = some f → f ≤ 0 →
        (compute_run_metrics results key).cost_per_finding_usd = none) ∧
    ((compute_run_metrics results key).avg_cost_usd = none ∨
        (compute_run_metrics results key).avg_findings = none →
      (compute_run_metrics results key).cost_per_finding_usd = none) := by
  have h : (compute_run_metrics results key).cost_per_finding_usd =
      match (compute_run_metrics results key).avg_cost_usd,
            (compute_run_metrics results key).avg_findings with
      | some c, some f => if 0 < f then some (c / f) else none
      | _, _ => none := rfl
  refine ⟨?_, ?_, ?_⟩
  · intro c f hc hf hpos
    rw [h, hc, hf]
    simp [hpos]
  · intro f hf hle
    rw [h, hf]
    rcases hc : (compute_run_metrics results key).avg_cost_usd with _ | c
    · rfl
    · simp [not_lt.mpr hle]
  · intro hor
    rcases hor with hc | hf
    · rw [h, hc]
    · rw [h, hf]
      rcases hc : (compute_run_metrics results key).avg_cost_usd with _ | c <;> rfl

/-- Helper: the `avg_cost_usd` entry is the safe mean of the sorted group's
costs (projection of `computeGroupMetrics`). -/
theorem computeGroupMetrics_avg_cost (runs : List RunRecord) :
    (computeGroupMetrics runs).avg_cost_usd =
      safeMean ((sortRuns runs).map (fun r => r.cost_usd)) := rfl

/-- Helper: the `avg_findings` entry is the safe mean of the sorted group's
finding counts (projection of `computeGroupMetrics`). -/
theorem computeGroupMetrics_avg_findings (runs : List RunRecord) :
    (computeGroupMetrics runs).avg_findings =
      safeMean ((sortRuns runs).map (fun r => (r.findings_count : ℚ))) := rfl

/-- Closed witness for `cost_per_finding_spec`: one run with 2 findings at
cost `1/10` gives `cost_per_finding = 1/20`. -/
theorem cost_per_finding_spec_witness :
    (compute_run_metrics c7Results c7Key).cost_per_finding_usd = some (1 / 20) := by
  have hg : sortRuns (groupOf c7Results c7Key) = [c7Run] := by
    rw [show groupOf c7Results c7Key = [c7Run] from rfl, sortRuns,
      List.mergeSort_singleton]
  have h1 : (compute_run_metrics c7Results c7Key).avg_cost_usd = some (1 / 10) := by
    show (computeGroupMetrics (groupOf c7Results c7Key)).avg_cost_usd = _
    rw [computeGroupMetrics_avg_cost, hg]
    norm_num [safeMean, c7Run]
  have h2 : (compute_run_metrics c7Results c7Key).avg_findings = some 2 := by
    show (computeGroupMetrics (groupOf c7Results c7Key)).avg_findings = _
    rw [computeGroupMetrics_avg_findings, hg]
    norm_num [safeMean, c7Run]
  have happ := (cost_per_finding_spec c7Results c7Key).1 (1 / 10) 2 h1 h2 (by norm_num)
  exact happ.trans (by norm_num)

/-- C5: the consistency metric of a group is undefined when the group has
exactly one run, and for a group with at least two runs it is the Jaccard
similarity of the finding-id sets of the first two runs in run-number
order. -/
theorem consistency_spec (results : List RunRecord)
    (key : String × String × String × String) :
    ((groupOf results key).length = 1 →
      (compute_run_metrics results key).consistency_jaccard = none) ∧
    (∀ r1 r2 rest, sortRuns (groupOf results key) = r1 :: r2 :: rest →
      (compute_run_metrics results key).consistency_jaccard =
        some (jaccard_similarity (idSet r1) (idSet r2))) := by
  have h : (compute_run_metrics results key).consistency_jaccard =
      match sortRuns (groupOf results key) with
      | r1 :: r2 :: _ => some (jaccard_similarity (idSet r1) (idSet r2))
      | _ => none := rfl
  constructor
  · intro h1
    have hlen : (sortRuns (groupOf results key)).length = 1 := by
      rw [sortRuns, List.length_mergeSort]
      exact h1
    rw [h]
    rcases hs : sortRuns (groupOf results key) with _ | ⟨a, _ | ⟨b, l⟩⟩
    · rfl
    · rfl
    · rw [hs] at hlen
      simp at hlen
  · intro r1 r2 rest hs
    rw [h, hs]

/-- Closed witness for `consistency_spec`: two runs with id sets
`{aaa, bbb}` and `{bbb, ccc}` give consistency `1/3`. -/
theorem consistency_spec_witness :
    (compute_run_metrics c5Results c5Key).consistency_jaccard =
      some (jaccard_similarity (idSet c5R1) (idSet c5R2)) ∧
    jaccard_similarity (idSet c5R1) (idSet c5R2) = 1 / 3 := by
  constructor
  · apply (consistency_spec c5Results c5Key).2 c5R1 c5R2 []
    rw [show groupOf c5Results c5Key = [c5R1, c5R2] from rfl, sortRuns]
    apply List.mergeSort_of_sorted
    decide
  · rw [jaccard_similarity, if_neg (by decide),
      show (idSet c5R1 ∩ idSet c5R2).card = 1 from by decide,
      show (idSet c5R1 ∪ idSet c5R2).card = 3 from by decide]
    norm_num

end BenchmarkAnalyze

namespace Nightwatch

/-- C4: polling a batch whose remote job is in a terminal failure or
cancellation state returns (does not raise) status `"ended"` with an empty
findings list, errored count 1 and processing count 0. -/
theorem retrieve_batch_terminal_failure (batch_id state_name : String)
    (output : List GenLine) (lastUsage : Usage) (default_focus : Option String)
    (h : state_name = "JOB_STATE_FAILED" ∨ state_name = "JOB_STATE_CANCELLED") :
    retrieve_batch batch_id state_name output lastUsage default_focus =
      .ok ({ batch_id := batch_id, status := "ended",
             request_counts := ⟨0, 0, 1⟩, findings := some [] }, lastUsage) := by
  rcases h with h | h <;> subst h <;> rfl

/-- Closed witness for `retrieve_batch_terminal_failure` at a cancelled
job. -/
theorem retrieve_batch_terminal_failure_witness :
    retrieve_batch "batches/abc" "JOB_STATE_CANCELLED" [] ⟨0, 0, 0, 0⟩ none =
      .ok ({ batch_id := "batches/abc", status := "ended",
             request_counts := ⟨0, 0, 1⟩, findings := some [] }, ⟨0, 0, 0, 0⟩) :=
  retrieve_batch_terminal_failure _ _ _ _ _ (Or.inr rfl)

/-- C3, code evaluated at the failing input: `AnthropicProvider._make_finding_id`
builds its key from `(file, title, line)` only, so two raw findings agreeing
there but differing on `focus` receive the SAME identity key — and the id is
`sha256(key)[:12]`, a fixed function of the key, so they receive the same id —
contradicting the claimed identity over `(file, title, line, focus)`. -/
theorem anthropic_id_ignores_focus :
    anthropicFindingKey
        { severity := "high", file := "auth.py", line := some 10,
          title := "SQL injection", description := "first wording",
          focus := some "security" } =
      anthropicFindingKey
        { severity := "high", file := "auth.py", line := some 10,
          title := "SQL injection", description := "second wording",
          focus := some "performance" } ∧
    (some "security" : Option String) ≠ some "performance" := by
  exact ⟨rfl, by decide⟩

/-- C9 counterexample: a provider response finding that supplies the focus
value `""` does not keep it — `f.get("focus") or default_focus` treats the
empty string as falsy, so the caller default wins over the supplied value. -/
theorem parse_focus_empty_string_counterexample :
    parseText [{ severity := "low", file := "a.py", title := "T",
                 description := "D", focus := some "" }] (some "security") =
      .ok [{ id := "a.py:T:", severity := .low, file := "a.py", title := "T",
             description := "D", focus := some "security" }] ∧
    (some "security" : Option String) ≠ some "" := by
  exact ⟨rfl, by decide⟩

/-- C9 (amended): an explicit per-finding focus wins over the caller default
exactly when it is truthy (present and non-empty); a focus that is absent,
`null` or the empty string is backfilled with the caller-supplied default. -/
theorem parse_focus_amended (f : RawFinding) (df : Option String) (fn : Finding)
    (h : parseFinding df f = .ok fn) :
    (pyTruthy f.focus = true → fn.focus = f.focus) ∧
    (pyTruthy f.focus = false → fn.focus = df) := by
  cases hs : Severity.ofString f.severity with
  | ok sev =>
      simp only [parseFinding, hs, Except.bind, bind, pure, Except.pure,
        Except.ok.injEq] at h
      constructor <;> intro ht <;> rw [← h] <;> simp [pyOrOpt, ht]
  | error e =>
      simp [parseFinding, hs, Except.bind, bind] at h

/-- Closed witness for `parse_focus_amended` at a finding supplying focus
`"performance"` under default `"security"`. -/
theorem parse_focus_amended_witness :
    (pyTruthy c9Raw.focus = true → c9Finding.focus = c9Raw.focus) ∧
    (pyTruthy c9Raw.focus = false → c9Finding.focus = some "security") :=
  parse_focus_amended c9Raw (some "security") c9Finding rfl

/-- C1, code evaluated at the failing input: with batch `b1` ended and batch
`b2` still processing, `retrieve_audit` obtains a non-empty result list and
therefore unlinks the pending-batch ledger (post-state `none`), although
`repoY`'s batch has not reached a terminal state — the ledger does not remain
on disk as claimed. -/
theorem ledger_cleared_while_still_processing :
    (c1Poll c1Batch2).status = "processing" ∧
    retrieve_audit c1Poll noFilter (some c1Pending) "now" =
      ([{ repo := "repoX", focus := "security", provider := "anthropic",
          timestamp := "now" }], none) := by
  exact ⟨rfl, rfl⟩

/-- C8: a (repo, focus) unit whose file gathering returns zero files yields
the placeholder `AuditResult` with provider tag `"none"` and empty findings,
issues no provider call (call count 0), and on the submission path returns no
batch info (hence no ledger entry for that repo) and issues no remote call
(empty trace). -/
theorem zero_files_placeholder
    (gather : String → RepoConfig → List FileContent)
    (runA : String → RepoConfig → Except RunnerError (List Finding))
    (submitB : String → RepoConfig → Except RunnerError String)
    (filterF : List Finding → List Finding × Nat)
    (providerFor : String → String) (repo : RepoConfig)
    (focus_name : String) (provider_name : Option String) (dry_run : Bool)
    (now : String) (h : gather focus_name repo = []) :
    runRepoSyncT gather runA filterF providerFor repo focus_name provider_name
        dry_run now =
      (.ok { repo := repo.name, focus := focus_name, provider := "none",
             findings := [], new_findings := [], resolved_count := 0,
             timestamp := now }, 0) ∧
    submitRepoT gather submitB providerFor repo focus_name provider_name dry_run =
      (.ok none, []) := by
  constructor
  · unfold runRepoSyncT
    rw [h]
    rfl
  · unfold submitRepoT
    rw [h]
    rfl

/-- Closed witness for `zero_files_placeholder` at a repo whose gather oracle
returns no files. -/
theorem zero_files_placeholder_witness :
    runRepoSyncT c8Gather c8Run noFilter (fun _ => "anthropic") c8Repo "security"
        none false "now" =
      (.ok { repo := "emptyRepo", focus := "security", provider := "none",
             findings := [], new_findings := [], resolved_count := 0,
             timestamp := "now" }, 0) ∧
    submitRepoT c8Gather c8Submit (fun _ => "anthropic") c8Repo "security" none
        false = (.ok none, []) := by
  simpa [c8Repo] using zero_files_placeholder c8Gather c8Run c8Submit noFilter
    (fun _ => "anthropic") c8Repo "security" none false "now" rfl

/-- C2 counterexample: with repos `[repoX, repoY]` and a submit oracle for
which `repoX`'s submission succeeds (second conjunct) and `repoY`'s raises
`ProviderError`, `submit_audit` propagates the exception — the invocation
produces NO pending-batch set at all, so in particular no set containing an
entry for `repoX`, whose submission succeeded; the claim's "the resulting
pending-batch set contains an entry for every repo whose submission
succeeded" fails. -/
theorem submit_error_aborts_counterexample :
    submit_auditT c2Gather c2Submit c2Cfg none none none false "now" =
      (.error (.provider "boom"), ["repoX", "repoY"]) ∧
    c2Submit "anthropic" c2X = .ok "bid-repoX" :=
  ⟨rfl, rfl⟩

/-- Helper: for a valid focus name, `submit_audit` reduces to the submission
loop over the configured repos. -/
theorem submit_auditT_valid_focus
    (gather : String → RepoConfig → List FileContent)
    (submitB : String → RepoConfig → Except RunnerError String)
    (cfg : Config) (provider_name : Option String) (now f : String)
    (hf : f ∈ FOCUS_AREAS) :
    submit_auditT gather submitB cfg none (some f) provider_name false now =
      (match submitLoopT gather submitB cfg.provider_for f provider_name false
          cfg.repos [] with
       | (.ok batches, t) =>
          (.ok (some { submitted_at := now, focus := f, batches := batches }), t)
       | (.error e, t) => (.error e, t)) := by
  have hf' : f = "security" ∨ f = "docs" ∨ f = "patterns" := by
    simpa [FOCUS_AREAS] using hf
  rcases hf' with h | h | h <;> subst h <;> rfl

/-- Helper: when every repo of a prefix submits successfully and the next
repo's `_submit_repo` raises, the submission loop propagates that exception
regardless of the accumulator (the batch infos already gathered are
discarded with it), and its remote-call trace is exactly the prefix's calls
followed by the failing repo's call — the repos after the failure are never
reached. -/
theorem submitLoopT_error_after_prefix
    (gather : String → RepoConfig → List FileContent)
    (submitB : String → RepoConfig → Except RunnerError String)
    (providerFor : String → String) (f : String) (provider_name : Option String)
    (x : RepoConfig) (rest : List RepoConfig) (e : RunnerError)
    (hx : (submitRepoT gather submitB providerFor x f provider_name false).1 =
      .error e) :
    ∀ (pre : List RepoConfig) (acc : List BatchInfo),
      (∀ r ∈ pre, ∃ bi,
        (submitRepoT gather submitB providerFor r f provider_name false).1 =
          .ok bi) →
      submitLoopT gather submitB providerFor f provider_name false
          (pre ++ x :: rest) acc =
        (.error e,
         pre.flatMap
            (fun r => (submitRepoT gather submitB providerFor r f provider_name
              false).2) ++
           (submitRepoT gather submitB providerFor x f provider_name
            false).2) := by
  intro pre
  induction pre with
  | nil =>
      intro acc _
      rcases hp : submitRepoT gather submitB providerFor x f provider_name false
        with ⟨res, t⟩
      rw [hp] at hx
      simp only at hx
      subst hx
      simp only [List.nil_append]
      unfold submitLoopT
      rw [hp]
      simp
  | cons r pre' ih =>
      intro acc hpre
      obtain ⟨bi, hok⟩ := hpre r (List.mem_cons_self r pre')
      rcases hp : submitRepoT gather submitB providerFor r f provider_name false
        with ⟨res, t⟩
      rw [hp] at hok
      simp only at hok
      subst hok
      have hpre' := fun r' hr' => hpre r' (List.mem_cons_of_mem r hr')
      simp only [List.cons_append]
      unfold submitLoopT
      rw [hp]
      rcases bi with _ | b
      · simp [ih acc hpre', hp, List.flatMap_cons, List.append_assoc]
      · simp [ih (acc ++ [b]) hpre', hp, List.flatMap_cons, List.append_assoc]

/-- C2 (amended): the submission loop has no per-repo error isolation — when
`_submit_repo` raises for any configured repo (after an arbitrary prefix of
repos whose submissions all succeeded), `submit_audit` propagates that
exception: no pending-batch set is returned or saved, so the batch entries of
the repos that succeeded before the failure are lost with it, and the
remote-call trace is exactly the earlier repos' calls plus the failing
repo's call — no repo after the failing one is ever submitted. -/
theorem submit_error_aborts_loop
    (gather : String → RepoConfig → List FileContent)
    (submitB : String → RepoConfig → Except RunnerError String)
    (cfg : Config) (provider_name : Option String) (now f : String)
    (pre : List RepoConfig) (x : RepoConfig) (rest : List RepoConfig)
    (e : RunnerError)
    (hf : f ∈ FOCUS_AREAS) (hrepos : cfg.repos = pre ++ x :: rest)
    (hpre : ∀ r ∈ pre, ∃ bi,
      (submitRepoT gather submitB cfg.provider_for r f provider_name false).1 =
        .ok bi)
    (hx : (submitRepoT gather submitB cfg.provider_for x f provider_name
      false).1 = .error e) :
    submit_auditT gather submitB cfg none (some f) provider_name false now =
      (.error e,
       pre.flatMap
          (fun r => (submitRepoT gather submitB cfg.provider_for r f
            provider_name false).2) ++
         (submitRepoT gather submitB cfg.provider_for x f provider_name
          false).2) := by
  rw [submit_auditT_valid_focus gather submitB cfg provider_name now f hf, hrepos,
    submitLoopT_error_after_prefix gather submitB cfg.provider_for f provider_name
      x rest e hx pre [] hpre]

/-- Closed witness for `submit_error_aborts_loop`: the failure occurs at the
SECOND repo, after `repoX` submitted successfully; the invocation still
errors (losing `repoX`'s entry) and the trace stops at `repoY`. -/
theorem submit_error_aborts_loop_witness :
    submit_auditT c2Gather c2Submit c2Cfg none (some "security") none false "t" =
      (.error (.provider "boom"), ["repoX", "repoY"]) :=
  submit_error_aborts_loop c2Gather c2Submit c2Cfg none "t" "security" [c2X] c2Y
    [] (.provider "boom") (by decide) rfl
    (by
      intro r hr
      have h : r = c2X := by simpa using hr
      subst h
      exact ⟨some ⟨"repoX", "bid-repoX", "anthropic"⟩, rfl⟩)
    rfl

/-- Helper: `lastFold` drops a payload-carrying head line once its parse
result becomes the new accumulator. -/
theorem lastFold_cons_some (df : Option String) (line : GenLine)
    (rest : List GenLine) (fs0 gq : List Finding) (payload : List RawFinding)
    (hq : lineFindingsPayload line = some payload)
    (hgq : parseText payload df = .ok gq)
    (hall : ∀ p ∈ rest.filterMap lineFindingsPayload,
      ∃ gs, parseText p df = .ok gs) :
    lastFold df (line :: rest) fs0 = lastFold df rest gq := by
  unfold lastFold
  rw [List.filterMap_cons, hq]
  rcases hL : rest.filterMap lineFindingsPayload with _ | ⟨a, l⟩
  · simp [hgq]
  · rw [List.getLast?_cons_cons]
    rcases hgl : (a :: l).getLast? with _ | p
    · rw [List.getLast?_eq_none_iff] at hgl
      cases hgl
    · obtain ⟨gs, hgs⟩ := hall p (by
        rw [hL]
        exact List.mem_of_mem_getLast? hgl)
      simp [hgs]

/-- Helper: after the output loop of `retrieve_batch`, the findings
accumulator holds the parse of the LAST payload-carrying line (or the initial
value when no line carries a payload), provided every carried payload
parses without error. -/
theorem processLines_lastFold (df : Option String) (lines : List GenLine) :
    ∀ (fs0 : List Finding) (u0 : Usage),
      (∀ p ∈ lines.filterMap lineFindingsPayload,
        ∃ gs, parseText p df = .ok gs) →
      ∃ u, processLines df lines fs0 u0 = .ok (lastFold df lines fs0, u) := by
  induction lines with
  | nil =>
      intro fs0 u0 _
      exact ⟨u0, rfl⟩
  | cons line rest ih =>
      intro fs0 u0 hall
      cases line with
      | blank => exact ih fs0 u0 hall
      | entry cs mu =>
          rcases cs with _ | ⟨c, cs'⟩
          · exact ih fs0 (mu.getD u0) hall
          · rcases c with ⟨parts⟩
            rcases parts with _ | ⟨payload, parts'⟩
            · exact ih fs0 (mu.getD u0) hall
            · have hq : lineFindingsPayload (.entry (⟨payload :: parts'⟩ :: cs') mu) =
                  some payload := rfl
              have hmem : payload ∈
                  (GenLine.entry (⟨payload :: parts'⟩ :: cs') mu :: rest).filterMap
                    lineFindingsPayload := by
                rw [List.filterMap_cons, hq]
                exact List.mem_cons_self _ _
              obtain ⟨gq, hgq⟩ := hall payload hmem
              have hall' : ∀ p ∈ rest.filterMap lineFindingsPayload,
                  ∃ gs, parseText p df = .ok gs := by
                intro p hp
                refine hall p ?_
                rw [List.filterMap_cons, hq]
                exact List.mem_cons_of_mem _ hp
              obtain ⟨u, hu⟩ := ih gq (mu.getD u0) hall'
              refine ⟨u, ?_⟩
              have hstep : processLines df
                  (GenLine.entry (⟨payload :: parts'⟩ :: cs') mu :: rest) fs0 u0 =
                  processLines df rest gq (mu.getD u0) := by
                show parseText payload df >>=
                    (fun fs' => processLines df rest fs' (mu.getD u0)) = _
                rw [hgq]
                rfl
              rw [hstep, hu,
                lastFold_cons_some df _ rest fs0 gq payload hq hgq hall']

/-- C10: for a succeeded batch whose downloaded output has (one or) more
payload-carrying response lines, `retrieve_batch` returns exactly the
findings parsed from the LAST such line — findings parsed from every earlier
line are discarded, because the loop reassigns `findings` per line instead of
extending it. -/
theorem retrieve_batch_keeps_last_line (batch_id : String)
    (output : List GenLine) (lastUsage : Usage) (df : Option String)
    (p : List RawFinding) (fs : List Finding)
    (hall : ∀ q ∈ output.filterMap lineFindingsPayload,
      ∃ gs, parseText q df = .ok gs)
    (hlast : (output.filterMap lineFindingsPayload).getLast? = some p)
    (hp : parseText p df = .ok fs) :
    ∃ u, retrieve_batch batch_id "JOB_STATE_SUCCEEDED" output lastUsage df =
      .ok ({ batch_id := batch_id, status := "ended",
             request_counts := ⟨0, 1, 0⟩, findings := some fs }, u) := by
  obtain ⟨u, hu⟩ := processLines_lastFold df output [] lastUsage hall
  have hfold : lastFold df output [] = fs := by
    unfold lastFold
    rw [hlast]
    simp [hp]
  refine ⟨u, ?_⟩
  have hrb : retrieve_batch batch_id "JOB_STATE_SUCCEEDED" output lastUsage df =
      (processLines df output [] lastUsage).bind (fun x =>
        Except.ok (({ batch_id := batch_id, status := "ended",
                      request_counts := ⟨0, 1, 0⟩,
                      findings := some x.1 } : RetrieveResult), x.2)) := rfl
  rw [hrb, hu, hfold]
  rfl

/-- Closed witness for `retrieve_batch_keeps_last_line`: two output lines
carrying different findings; only the second line's finding is returned. -/
theorem retrieve_batch_keeps_last_line_witness :
    ∃ u, retrieve_batch "batches/j" "JOB_STATE_SUCCEEDED" [c10Line1, c10Line2]
        ⟨0, 0, 0, 0⟩ none =
      .ok ({ batch_id := "batches/j", status := "ended",
             request_counts := ⟨0, 1, 0⟩, findings := some [c10FindingB] }, u) :=
  retrieve_batch_keeps_last_line "batches/j" [c10Line1, c10Line2] ⟨0, 0, 0, 0⟩
    none [c10RawB] [c10FindingB]
    (by
      intro q hq
      simp only [c10Line1, c10Line2, lineFindingsPayload, List.filterMap_cons,
        List.filterMap_nil, Option.bind_eq_bind, List.head?_cons, Option.some_bind,
        List.mem_cons, List.not_mem_nil, or_false] at hq
      rcases hq with h | h <;> subst h <;> exact ⟨_, rfl⟩)
    rfl rfl

end Nightwatch
